import Mathlib

/-!
# The object bridge of gopy (`lib/object.go`)

A shallow embedding of the host-side wrapper layer of `lib/object.go`:

* the helper `c`, which hands the foreign pointer of a wrapper to the foreign runtime;
* the type registry `types`, `registerType` and the dynamic resolver `BaseObject.actual`;
* the call protocol `Call`, `CallObject`, `CallFunction`, `CallMethod`,
  `CallFunctionObjArgs` and `CallMethodObjArgs`.

Foreign pointers are machine addresses (`Nat`, `0` is the null pointer).  The foreign runtime
and the collaborators that live outside `object.go` (`getBasePyType`, `buildTuple`,
`Tuple_Pack`, `obj2ObjErr`, the C API itself) are parameters of the development.  The stateful
part threads a foreign state and records, in order, every foreign primitive and collaborator
that `object.go` invokes.
-/

namespace Gopy

/-! ## Pointers, wrappers and interface values -/

/-- A C pointer (`*C.PyObject`, `*C.PyTypeObject`): a machine address, `0` being `nil`. -/
abbrev Ptr := Nat

/-- The null foreign pointer. -/
def NULL : Ptr := 0

/-- The Go struct `BaseObject`, holding the foreign pointer `o`. -/
structure BaseObject where
  o : Ptr
deriving DecidableEq, Repr

/-- A run-time panic of the host program. -/
inductive Panic where
  /-- A load through a nil pointer ("invalid memory address or nil pointer dereference"). -/
  | nilDeref
deriving DecidableEq, Repr

/-- A Go value of the interface type `Object`, as far as the helper `c` can observe it.
It is either the nil interface, or it has a dynamic pointer type (`*BaseObject`, `*Tuple`,
`*Dict`, ...) together with a pointer that may itself be nil; a non-nil pointer is
represented by the `BaseObject` that its `Base()` method returns. -/
inductive Iface where
  | nil
  | ptr (p : Option BaseObject)
deriving DecidableEq, Repr

/-- The helper `c`: the nil interface becomes the null foreign pointer, anything else is
`obj.Base().o`, a load that panics when the dynamic pointer is nil. -/
def c : Iface → Except Panic Ptr
  | .nil => .ok NULL
  | .ptr none => .error .nilDeref
  | .ptr (some b) => .ok b.o

/-- The function `newBaseObject`: nil for the null pointer, a fresh wrapper otherwise. -/
def newBaseObject (obj : Ptr) : Option BaseObject :=
  if obj = NULL then none else some ⟨obj⟩

/-- The method `Base` of `*BaseObject`. -/
def BaseObject.Base (obj : BaseObject) : BaseObject := obj

/-! ## The dynamic resolver -/

/-- The dynamic type of a Go interface value: an identity, and whether the method set of the
type satisfies the interface `Object` (which decides the type assertion `.(Object)`). -/
structure GoType where
  id : Nat
  isObject : Bool
deriving DecidableEq, Repr

/-- Modelled from the spec: the struct `Class` is declared outside `object.go`; it is the
"shape descriptor" of a registered host wrapper type.  `actual` reads only its field
`Pointer`, an interface value of which only the dynamic type is used. -/
structure Class where
  Pointer : GoType
deriving DecidableEq, Repr

/-- The static part of the foreign runtime and of the platform that `actual` depends on. -/
structure Runtime where
  /-- Width in bits of `uintptr`. -/
  wordBits : Nat
  /-- The C helper `headSize`, `sizeof(PyObject)`. -/
  headSize : Nat
  /-- The header field `ob_type` of the object at a non-null address. -/
  ob_type : Ptr → Ptr
  /-- The C helper `getBasePyType` of `utils.h`. -/
  getBasePyType : Ptr → Ptr
  PyList_Type : Ptr
  PyTuple_Type : Ptr
  PyDict_Type : Ptr
  PyString_Type : Ptr
  PyBool_Type : Ptr
  PyInt_Type : Ptr
  PyLong_Type : Ptr
  PyFloat_Type : Ptr
  PyModule_Type : Ptr
  PyType_Type : Ptr
  /-- The address of the foreign object `True`. -/
  Py_True : Ptr
  /-- The address of the foreign object `False`. -/
  Py_False : Ptr

/-- The values that `actual` can return, by dynamic type. -/
inductive Object where
  /-- The receiver itself, a `*BaseObject`. -/
  | Plain (b : BaseObject)
  | List (b : BaseObject)
  | Tuple (b : BaseObject)
  | Dict (b : BaseObject)
  | String (b : BaseObject)
  | Bool (b : BaseObject)
  | Int (b : BaseObject)
  | Long (b : BaseObject)
  | Float (b : BaseObject)
  | Module (b : BaseObject)
  | PyType (b : BaseObject)
  /-- A pointer of the registered dynamic type `t` to the address `p`. -/
  | Registered (t : GoType) (p : Ptr)
deriving DecidableEq, Repr

/-- The ten entries of the built-in table, in the order of the `switch`. -/
inductive Builtin where
  | list | tuple | dict | string | bool | int | long | float | module | type
deriving DecidableEq, Repr, Fintype

/-- The address of the foreign type object of a built-in entry. -/
def Runtime.typeOf (R : Runtime) : Builtin → Ptr
  | .list => R.PyList_Type
  | .tuple => R.PyTuple_Type
  | .dict => R.PyDict_Type
  | .string => R.PyString_Type
  | .bool => R.PyBool_Type
  | .int => R.PyInt_Type
  | .long => R.PyLong_Type
  | .float => R.PyFloat_Type
  | .module => R.PyModule_Type
  | .type => R.PyType_Type

/-- The host shape of a returned value: one of the built-in shapes, a registered shape, or
the bare `BaseObject`. -/
inductive Shape where
  | base
  | builtin (k : Builtin)
  | registered (t : GoType)
deriving DecidableEq, Repr

/-- The dynamic type of a returned value. -/
def Object.shape : Object → Shape
  | .Plain _ => .base
  | .List _ => .builtin .list
  | .Tuple _ => .builtin .tuple
  | .Dict _ => .builtin .dict
  | .String _ => .builtin .string
  | .Bool _ => .builtin .bool
  | .Int _ => .builtin .int
  | .Long _ => .builtin .long
  | .Float _ => .builtin .float
  | .Module _ => .builtin .module
  | .PyType _ => .builtin .type
  | .Registered t _ => .registered t

/-- The map `types`: finitely many keys, each bound to one `*Class` (`none` is a nil
pointer). -/
abbrev Types := List (Ptr × Option Class)

/-- The lookup `types[k]` with its `ok` flag. -/
def Types.get (types : Types) (k : Ptr) : Option (Option Class) :=
  List.lookup k types

/-- The function `registerType`: the assignment `types[pyType] = class`. -/
def registerType (pyType : Ptr) (cls : Option Class) (types : Types) : Types :=
  (pyType, cls) :: types.filter (fun e => e.1 != pyType)

/-- The sum `uintptr(p) + uintptr(C.headSize())`, in `uintptr` arithmetic. -/
def Runtime.afterHead (R : Runtime) (p : Ptr) : Ptr :=
  (p % 2 ^ R.wordBits + R.headSize % 2 ^ R.wordBits) % 2 ^ R.wordBits

/-- Modelled from the spec: `newBool` is defined outside `object.go`.  "Boolean construction
is special-cased to return one of exactly two singleton values (true/false) rather than
allocating": the singleton over the foreign `True` for that handle, the singleton over the
foreign `False` otherwise. -/
def newBool (R : Runtime) (obj : Ptr) : BaseObject :=
  if obj = R.Py_True then ⟨R.Py_True⟩ else ⟨R.Py_False⟩

/-- The `switch` over `C.getBasePyType(c(obj))` that ends `actual`, with its fall-through
`return obj`. -/
def actualSwitch (R : Runtime) (obj : BaseObject) : Object :=
  let t := R.getBasePyType obj.o
  if t = R.PyList_Type then .List obj
  else if t = R.PyTuple_Type then .Tuple obj
  else if t = R.PyDict_Type then .Dict obj
  else if t = R.PyString_Type then .String obj
  else if t = R.PyBool_Type then .Bool (newBool R obj.o)
  else if t = R.PyInt_Type then .Int obj
  else if t = R.PyLong_Type then .Long obj
  else if t = R.PyFloat_Type then .Float obj
  else if t = R.PyModule_Type then .Module obj
  else if t = R.PyType_Type then .PyType obj
  else .Plain obj

/-- The method `actual` of `*BaseObject`.  Reading `ob_type` through a null `o` and reading
`Pointer` through a nil `*Class` are nil dereferences. -/
def BaseObject.actual (R : Runtime) (types : Types) (obj : BaseObject) : Except Panic Object :=
  match c (.ptr (some obj)) with
  | .error e => .error e
  | .ok p =>
    if p = NULL then .error .nilDeref
    else
      match types.get (R.ob_type p) with
      | some none => .error .nilDeref
      | some (some cls) =>
        let o := R.afterHead p
        let t := cls.Pointer
        if t.isObject then .ok (.Registered t o) else .ok (actualSwitch R obj)
      | none => .ok (actualSwitch R obj)

/-- Modelled from the spec: the wrapper types that are registered are defined outside
`object.go`.  The registered wrapper lives "immediately after the foreign runtime's fixed
object header within the same memory the handle points to" and "shares the same handle": its
handle is the address `headSize` bytes before it, in `uintptr` arithmetic. -/
def Runtime.beforeHead (R : Runtime) (p : Ptr) : Ptr :=
  (p % 2 ^ R.wordBits + (2 ^ R.wordBits - R.headSize % 2 ^ R.wordBits)) % 2 ^ R.wordBits

/-- The method `Base` of a returned value: the embedded `BaseObject` of a built-in shape, the
receiver for a `*BaseObject`, the wrapper over `beforeHead` for a registered shape. -/
def Object.Base (R : Runtime) : Object → BaseObject
  | .Plain b => b.Base
  | .List b => b
  | .Tuple b => b
  | .Dict b => b
  | .String b => b
  | .Bool b => b
  | .Int b => b
  | .Long b => b
  | .Float b => b
  | .Module b => b
  | .PyType b => b
  | .Registered _ p => ⟨R.beforeHead p⟩

/-- The foreign pointer that backs a returned value. -/
def Object.handle (R : Runtime) (x : Object) : Ptr := (x.Base R).o

/-- A pointer that addresses a foreign object: not null, and representable in `uintptr`. -/
def Runtime.Live (R : Runtime) (p : Ptr) : Prop := p ≠ NULL ∧ p < 2 ^ R.wordBits

instance (R : Runtime) (p : Ptr) : Decidable (R.Live p) := by
  unfold Runtime.Live; infer_instance

/-! ## The call protocol -/

/-- A host error value (`os.Error`), by its message. -/
abbrev Error := String

/-- The wrapper struct `Tuple`, which embeds a `BaseObject`; a `*Tuple` is an
`Option Tuple`. -/
structure Tuple where
  toBaseObject : BaseObject
deriving DecidableEq, Repr

/-- The wrapper struct `Dict`, which embeds a `BaseObject`; a `*Dict` is an `Option Dict`. -/
structure Dict where
  toBaseObject : BaseObject
deriving DecidableEq, Repr

/-- The conversion of a `*Tuple` to the interface `Object`: never the nil interface. -/
def Tuple.iface (t : Option Tuple) : Iface := .ptr (t.map Tuple.toBaseObject)

/-- The conversion of a `*Dict` to the interface `Object`: never the nil interface. -/
def Dict.iface (d : Option Dict) : Iface := .ptr (d.map Dict.toBaseObject)

/-- The conversion of a `*BaseObject` to the interface `Object`. -/
def BaseObject.iface (b : Option BaseObject) : Iface := .ptr b

/-- The calls that leave `object.go`, with their arguments; `V` is the type of the host
values passed as `...interface{}`. -/
inductive Event (V : Type) where
  | CString (s : String)
  | free (s : String)
  | PyObject_GetAttrString (o : Ptr) (name : String)
  | PyCallable_Check (f : Ptr)
  | decref (f : Ptr)
  | buildTuple (format : String) (args : List V)
  | Tuple_Pack (args : List Iface)
  | PyObject_Call (f args kwds : Ptr)
  | PyObject_CallObject (f args : Ptr)
  | obj2ObjErr (ret : Ptr)
deriving DecidableEq, Repr

/-- The event is an invocation of a foreign callable. -/
def Event.isInvoke {V : Type} : Event V → Bool
  | .PyObject_Call _ _ _ => true
  | .PyObject_CallObject _ _ => true
  | _ => false

/-- The event is a marshaling of arguments into a foreign tuple. -/
def Event.isMarshal {V : Type} : Event V → Bool
  | .buildTuple _ _ => true
  | .Tuple_Pack _ => true
  | _ => false

/-- The event is a decrement of the reference count of `f`. -/
def Event.isDecrefOf {V : Type} (f : Ptr) : Event V → Bool
  | .decref g => g == f
  | _ => false

/-- The event is a decrement of some reference count. -/
def Event.isDecref {V : Type} : Event V → Bool
  | .decref _ => true
  | _ => false

/-- The foreign runtime and the collaborators of the call protocol, over a foreign state
`σ`: each takes the state it runs in and returns the state it leaves. -/
structure Foreign (σ V : Type) where
  PyObject_GetAttrString : σ → Ptr → String → Ptr × σ
  PyCallable_Check : σ → Ptr → Int × σ
  PyObject_Call : σ → Ptr → Ptr → Ptr → Ptr × σ
  PyObject_CallObject : σ → Ptr → Ptr → Ptr × σ
  decref : σ → Ptr → σ
  buildTuple : σ → String → List V → (Option Tuple × Option Error) × σ
  Tuple_Pack : σ → List Iface → (Option Tuple × Option Error) × σ
  obj2ObjErr : σ → Ptr → (Option Object × Option Error) × σ

/-- The foreign state together with the calls made so far, oldest first. -/
structure World (σ V : Type) where
  foreign : σ
  trace : List (Event V)

/-- A host computation: it ends with a value or a panic, in a new world. -/
def Go (σ V α : Type) : Type := World σ V → Except Panic α × World σ V

/-- Return a value. -/
def Go.pure {σ V α : Type} (a : α) : Go σ V α := fun w => (.ok a, w)

/-- Sequencing: a panic of the first computation ends the sequence. -/
def Go.bind {σ V α β : Type} (m : Go σ V α) (f : α → Go σ V β) : Go σ V β := fun w =>
  match m w with
  | (.ok a, w1) => f a w1
  | (.error p, w1) => (.error p, w1)

instance {σ V : Type} : Monad (Go σ V) where
  pure := Go.pure
  bind := Go.bind

/-- A host-side step that may panic and calls nothing. -/
def Go.lift {σ V α : Type} (r : Except Panic α) : Go σ V α := fun w => (r, w)

/-- A call that leaves `object.go`: it is recorded and it advances the foreign state. -/
def Go.call {σ V α : Type} (e : Event V) (op : σ → α × σ) : Go σ V α := fun w =>
  (.ok (op w.foreign).1, ⟨(op w.foreign).2, w.trace ++ [e]⟩)

/-- The statement `defer`: the deferred call runs when the body has returned or panicked. -/
def Go.defer {σ V α : Type} (e : Event V) (op : σ → σ) (body : Go σ V α) : Go σ V α := fun w =>
  ((body w).1, ⟨op (body w).2.foreign, (body w).2.trace ++ [e]⟩)

/-- The result pair `(Object, os.Error)` of the call methods. -/
abbrev Ret := Option Object × Option Error

/-- The tail `return obj2ObjErr(ret)` of the call methods. -/
def obj2ObjErr {σ V : Type} (F : Foreign σ V) (ret : Ptr) : Go σ V Ret :=
  Go.call (.obj2ObjErr ret) (fun s => F.obj2ObjErr s ret)

/-- The method `Call`. -/
def Call {σ V : Type} (F : Foreign σ V) (obj : BaseObject) (args : Option Tuple)
    (kwds : Option Dict) : Go σ V Ret := do
  let f ← Go.lift (c (BaseObject.iface (some obj)))
  let a ← Go.lift (c (Tuple.iface args))
  let k ← Go.lift (c (Dict.iface kwds))
  let ret ← Go.call (.PyObject_Call f a k) (fun s => F.PyObject_Call s f a k)
  obj2ObjErr F ret

/-- The method `CallObject`. -/
def CallObject {σ V : Type} (F : Foreign σ V) (obj : BaseObject) (args : Option Tuple) :
    Go σ V Ret := do
  let a ← (if args ≠ none then Go.lift (c (Tuple.iface args)) else Go.pure NULL)
  let f ← Go.lift (c (BaseObject.iface (some obj)))
  let ret ← Go.call (.PyObject_CallObject f a) (fun s => F.PyObject_CallObject s f a)
  obj2ObjErr F ret

/-- The method `CallFunction`. -/
def CallFunction {σ V : Type} (F : Foreign σ V) (obj : BaseObject) (format : String)
    (args : List V) : Go σ V Ret := do
  let r ← Go.call (.buildTuple format args) (fun s => F.buildTuple s format args)
  if r.2 ≠ none then Go.pure (none, r.2)
  else CallObject F obj r.1

/-- The method `CallFunctionObjArgs`. -/
def CallFunctionObjArgs {σ V : Type} (F : Foreign σ V) (obj : BaseObject) (args : List Iface) :
    Go σ V Ret := do
  let r ← Go.call (.Tuple_Pack args) (fun s => F.Tuple_Pack s args)
  if r.2 ≠ none then Go.pure (none, r.2)
  else CallObject F obj r.1

/-- The method `CallMethod`.  The two deferred calls run in reverse order of their `defer`
statements, after the result pair has been computed. -/
def CallMethod {σ V : Type} (F : Foreign σ V) (obj : BaseObject) (name format : String)
    (args : List V) : Go σ V Ret := do
  let _ ← Go.call (.CString name) (fun s => ((), s))
  Go.defer (.free name) id do
    let f ← Go.call (.PyObject_GetAttrString obj.o name)
      (fun s => F.PyObject_GetAttrString s obj.o name)
    if f = NULL then Go.pure (none, some ("AttributeError: " ++ name))
    else Go.defer (.decref f) (fun s => F.decref s f) do
      let chk ← Go.call (.PyCallable_Check f) (fun s => F.PyCallable_Check s f)
      if chk = 0 then
        Go.pure (none, some ("TypeError: attribute of type '" ++ name ++ "' is not callable"))
      else do
        let r ← Go.call (.buildTuple format args) (fun s => F.buildTuple s format args)
        if r.2 ≠ none then Go.pure (none, r.2)
        else do
          let a ← Go.lift (c (Tuple.iface r.1))
          let ret ← Go.call (.PyObject_CallObject f a) (fun s => F.PyObject_CallObject s f a)
          obj2ObjErr F ret

/-- The method `CallMethodObjArgs`. -/
def CallMethodObjArgs {σ V : Type} (F : Foreign σ V) (obj : BaseObject) (name : String)
    (args : List Iface) : Go σ V Ret := do
  let _ ← Go.call (.CString name) (fun s => ((), s))
  Go.defer (.free name) id do
    let f ← Go.call (.PyObject_GetAttrString obj.o name)
      (fun s => F.PyObject_GetAttrString s obj.o name)
    if f = NULL then Go.pure (none, some ("AttributeError: " ++ name))
    else Go.defer (.decref f) (fun s => F.decref s f) do
      let chk ← Go.call (.PyCallable_Check f) (fun s => F.PyCallable_Check s f)
      if chk = 0 then
        Go.pure (none, some ("TypeError: attribute of type '" ++ name ++ "' is not callable"))
      else do
        let r ← Go.call (.Tuple_Pack args) (fun s => F.Tuple_Pack s args)
        if r.2 ≠ none then Go.pure (none, r.2)
        else do
          let a ← Go.lift (c (Tuple.iface r.1))
          let ret ← Go.call (.PyObject_CallObject f a) (fun s => F.PyObject_CallObject s f a)
          obj2ObjErr F ret

/-- The calls made between the world `w` and a later world `w1`. -/
def World.since {σ V : Type} (w w1 : World σ V) : List (Event V) :=
  w1.trace.drop w.trace.length

/-! ## A small concrete runtime -/

/-- A 64-bit runtime with a 16-byte object header.  The ten built-in type objects sit at
`100, 110, ..., 190`, `True` at `700` and `False` at `701`.  The heap holds a dict at `4096`,
an instance of the user type `500` (a dict subclass) at `4128`, an instance of the plain
type `600` at `4160` and an int at `4192`. -/
def exampleRuntime : Runtime where
  wordBits := 64
  headSize := 16
  ob_type := fun p =>
    if p = 4096 then 120 else if p = 4128 then 500 else if p = 4160 then 600
    else if p = 4192 then 150 else if p = 700 ∨ p = 701 then 140 else 190
  getBasePyType := fun p =>
    if p = 4096 ∨ p = 4128 then 120 else if p = 4192 then 150
    else if p = 700 ∨ p = 701 then 140 else NULL
  PyList_Type := 100
  PyTuple_Type := 110
  PyDict_Type := 120
  PyString_Type := 130
  PyBool_Type := 140
  PyInt_Type := 150
  PyLong_Type := 160
  PyFloat_Type := 170
  PyModule_Type := 180
  PyType_Type := 190
  Py_True := 700
  Py_False := 701

/-- A registered wrapper type whose pointer type implements `Object`. -/
def exampleClass : Class := ⟨⟨1, true⟩⟩

/-- A foreign runtime over a counter of invoked callables.  The attribute `keys` is the
callable at `5000`, the attribute `size` is the non-callable at `5008`, no other attribute
exists; every invocation returns the object at `6000`.  The marshaler fails when the format
and the values differ in length. -/
def exampleForeign : Foreign Nat Int where
  PyObject_GetAttrString := fun s _ name =>
    if name = "keys" then (5000, s) else if name = "size" then (5008, s) else (NULL, s)
  PyCallable_Check := fun s f => (if f = 5000 then 1 else 0, s)
  PyObject_Call := fun s _ _ _ => (6000, s + 1)
  PyObject_CallObject := fun s _ _ => (6000, s + 1)
  decref := fun s _ => s
  buildTuple := fun s format args =>
    if format.length = args.length then ((some ⟨⟨9000⟩⟩, none), s)
    else ((none, some "buildTuple: wrong number of values"), s)
  Tuple_Pack := fun s _ => ((some ⟨⟨9008⟩⟩, none), s)
  obj2ObjErr := fun s ret =>
    if ret = NULL then ((none, some "exception"), s) else ((some (.Plain ⟨ret⟩), none), s)

/-! ## Facts about the registry and the pointer arithmetic -/

theorem Types.get_nil (k : Ptr) : Types.get [] k = none := rfl

theorem Types.get_registerType_self (t : Ptr) (d : Option Class) (types : Types) :
    (registerType t d types).get t = some d := by
  simp [Types.get, registerType, List.lookup]

theorem Types.get_filter_ne (t k : Ptr) (h : k ≠ t) (types : Types) :
    Types.get (types.filter (fun e => e.1 != t)) k = types.get k := by
  induction types with
  | nil => rfl
  | cons e es ih =>
    obtain ⟨a, b⟩ := e
    by_cases hat : a = t
    · subst hat
      have hka : (k == a) = false := by simpa using h
      simpa [Types.get, List.filter, List.lookup, hka] using ih
    · have hne : (a != t) = true := by simpa using hat
      simp only [Types.get, List.filter, hne, List.lookup] at ih ⊢
      cases k == a <;> simp [ih]

theorem Types.get_registerType_ne (t k : Ptr) (d : Option Class) (h : k ≠ t) (types : Types) :
    (registerType t d types).get k = types.get k := by
  have hkt : (k == t) = false := by simpa using h
  have := Types.get_filter_ne t k h types
  simpa [Types.get, registerType, List.lookup, hkt] using this

theorem Types.get_foldl_registerType (t : Ptr) (rs : List (Ptr × Option Class))
    (h : ∀ r ∈ rs, r.1 ≠ t) (types : Types) :
    Types.get (rs.foldl (fun m r => registerType r.1 r.2 m) types) t = types.get t := by
  induction rs generalizing types with
  | nil => rfl
  | cons r rs ih =>
    have h1 : r.1 ≠ t := h r (List.mem_cons_self _ _)
    have h2 : ∀ x ∈ rs, x.1 ≠ t := fun x hx => h x (List.mem_cons_of_mem _ hx)
    rw [List.foldl_cons, ih h2, Types.get_registerType_ne r.1 t r.2 (Ne.symm h1)]

theorem uintptr_add_sub (W h p : Nat) (hW : 0 < W) (hp : p < W) :
    ((p % W + h % W) % W % W + (W - h % W)) % W = p := by
  have hh : h % W < W := Nat.mod_lt _ hW
  rw [Nat.mod_mod, Nat.mod_eq_of_lt hp, Nat.mod_add_mod]
  have e : p + h % W + (W - h % W) = p + W := by omega
  rw [e, Nat.add_mod_right, Nat.mod_eq_of_lt hp]

theorem Runtime.beforeHead_afterHead (R : Runtime) (p : Ptr) (hp : p < 2 ^ R.wordBits) :
    R.beforeHead (R.afterHead p) = p :=
  uintptr_add_sub (2 ^ R.wordBits) R.headSize p (by positivity) hp

theorem actualSwitch_of_typeOf (R : Runtime) (obj : BaseObject) (k : Builtin)
    (hinj : Function.Injective R.typeOf) (hk : R.getBasePyType obj.o = R.typeOf k) :
    actualSwitch R obj =
      match k with
      | .list => .List obj
      | .tuple => .Tuple obj
      | .dict => .Dict obj
      | .string => .String obj
      | .bool => .Bool (newBool R obj.o)
      | .int => .Int obj
      | .long => .Long obj
      | .float => .Float obj
      | .module => .Module obj
      | .type => .PyType obj := by
  have hne : ∀ j, j ≠ k → ¬ R.typeOf k = R.typeOf j := fun j hj e => hj (hinj e).symm
  have h1 := hne .list
  have h2 := hne .tuple
  have h3 := hne .dict
  have h4 := hne .string
  have h5 := hne .bool
  have h6 := hne .int
  have h7 := hne .long
  have h8 := hne .float
  have h9 := hne .module
  have h10 := hne .type
  unfold actualSwitch
  simp only [hk]
  cases k <;> simp_all [Runtime.typeOf]

theorem actualSwitch_of_not_typeOf (R : Runtime) (obj : BaseObject)
    (h : ∀ k, R.getBasePyType obj.o ≠ R.typeOf k) : actualSwitch R obj = .Plain obj := by
  have h1 := h .list
  have h2 := h .tuple
  have h3 := h .dict
  have h4 := h .string
  have h5 := h .bool
  have h6 := h .int
  have h7 := h .long
  have h8 := h .float
  have h9 := h .module
  have h10 := h .type
  simp only [Runtime.typeOf] at h1 h2 h3 h4 h5 h6 h7 h8 h9 h10
  simp [actualSwitch, *]

theorem newBool_of_singleton (R : Runtime) (p : Ptr) (h : p = R.Py_True ∨ p = R.Py_False) :
    newBool R p = ⟨p⟩ := by
  unfold newBool
  by_cases ht : p = R.Py_True
  · rw [if_pos ht, ht]
  · rw [if_neg ht]
    rcases h with h | h
    · exact absurd h ht
    · rw [h]

/-- The switch returns a value whose `Base()` is the receiver. -/
theorem actualSwitch_Base (R : Runtime) (obj : BaseObject)
    (hbool : R.getBasePyType obj.o = R.PyBool_Type → obj.o = R.Py_True ∨ obj.o = R.Py_False) :
    (actualSwitch R obj).Base R = obj := by
  unfold actualSwitch
  dsimp only
  by_cases h0 : R.getBasePyType obj.o = R.PyList_Type
  · rw [if_pos h0]
    rfl
  rw [if_neg h0]
  by_cases h1 : R.getBasePyType obj.o = R.PyTuple_Type
  · rw [if_pos h1]
    rfl
  rw [if_neg h1]
  by_cases h2 : R.getBasePyType obj.o = R.PyDict_Type
  · rw [if_pos h2]
    rfl
  rw [if_neg h2]
  by_cases h3 : R.getBasePyType obj.o = R.PyString_Type
  · rw [if_pos h3]
    rfl
  rw [if_neg h3]
  by_cases h4 : R.getBasePyType obj.o = R.PyBool_Type
  · rw [if_pos h4]
    show newBool R obj.o = obj
    rw [newBool_of_singleton R obj.o (hbool h4)]
  rw [if_neg h4]
  by_cases h5 : R.getBasePyType obj.o = R.PyInt_Type
  · rw [if_pos h5]
    rfl
  rw [if_neg h5]
  by_cases h6 : R.getBasePyType obj.o = R.PyLong_Type
  · rw [if_pos h6]
    rfl
  rw [if_neg h6]
  by_cases h7 : R.getBasePyType obj.o = R.PyFloat_Type
  · rw [if_pos h7]
    rfl
  rw [if_neg h7]
  by_cases h8 : R.getBasePyType obj.o = R.PyModule_Type
  · rw [if_pos h8]
    rfl
  rw [if_neg h8]
  by_cases h9 : R.getBasePyType obj.o = R.PyType_Type
  · rw [if_pos h9]
    rfl
  rw [if_neg h9]
  rfl

theorem actual_of_miss (R : Runtime) (types : Types) (obj : BaseObject) (hlive : obj.o ≠ NULL)
    (hreg : types.get (R.ob_type obj.o) = none) :
    obj.actual R types = .ok (actualSwitch R obj) := by
  simp [BaseObject.actual, c, hlive, hreg]

theorem actual_of_hit (R : Runtime) (types : Types) (obj : BaseObject) (cls : Class)
    (hlive : obj.o ≠ NULL) (hreg : types.get (R.ob_type obj.o) = some (some cls)) :
    obj.actual R types =
      if cls.Pointer.isObject then .ok (.Registered cls.Pointer (R.afterHead obj.o))
      else .ok (actualSwitch R obj) := by
  simp [BaseObject.actual, c, hlive, hreg]

/-! ## The resolver -/

/-- C1: a live `BaseObject` whose type is not a key of `types` and whose built-in base type
is none of the ten table entries is returned by `actual` as it is: the call does not fail,
and the result is the receiver, over the same pointer. -/
theorem actual_fallback (R : Runtime) (types : Types) (obj : BaseObject)
    (hlive : obj.o ≠ NULL) (hreg : types.get (R.ob_type obj.o) = none)
    (hbase : ∀ k, R.getBasePyType obj.o ≠ R.typeOf k) :
    obj.actual R types = .ok (.Plain obj) ∧ (Object.Plain obj).handle R = obj.o := by
  refine ⟨?_, rfl⟩
  rw [actual_of_miss R types obj hlive hreg, actualSwitch_of_not_typeOf R obj hbase]

theorem actual_fallback_witness :
    (BaseObject.mk 4160).actual exampleRuntime [(500, some exampleClass)]
        = .ok (.Plain ⟨4160⟩) ∧
      (Object.Plain ⟨4160⟩).handle exampleRuntime = 4160 :=
  actual_fallback exampleRuntime [(500, some exampleClass)] ⟨4160⟩ (by decide) (by decide)
    (by decide)

/-- C2: a live `BaseObject` whose type is not a key of `types` and whose built-in base type
is the entry `k` of the table is resolved to a value of the built-in shape `k` over the same
pointer; a dict-typed pointer yields a `Dict` over it with the empty registry.  The ten type
objects are distinct, and a bool-typed pointer is one of the two bool objects of the foreign
runtime. -/
theorem actual_builtin (R : Runtime) (types : Types) (obj : BaseObject) (k : Builtin)
    (hlive : obj.o ≠ NULL) (hreg : types.get (R.ob_type obj.o) = none)
    (hk : R.getBasePyType obj.o = R.typeOf k) (hinj : Function.Injective R.typeOf)
    (hbool : k = .bool → obj.o = R.Py_True ∨ obj.o = R.Py_False) :
    (∃ x, obj.actual R types = .ok x ∧ x.shape = .builtin k ∧ x.handle R = obj.o) ∧
      (k = .dict → obj.actual R [] = .ok (.Dict obj)) := by
  have hsw := actualSwitch_of_typeOf R obj k hinj hk
  constructor
  · refine ⟨actualSwitch R obj, actual_of_miss R types obj hlive hreg, ?_, ?_⟩
    · rw [hsw]; cases k <;> rfl
    · rw [hsw]
      cases k <;> try rfl
      show (newBool R obj.o).o = obj.o
      rw [newBool_of_singleton R obj.o (hbool rfl)]
  · intro hd
    subst hd
    rw [actual_of_miss R [] obj hlive (Types.get_nil _), hsw]

theorem actual_builtin_witness :
    (∃ x, (BaseObject.mk 4096).actual exampleRuntime [] = .ok x ∧
        x.shape = .builtin .dict ∧ x.handle exampleRuntime = 4096) ∧
      (BaseObject.mk 4096).actual exampleRuntime [] = .ok (.Dict ⟨4096⟩) :=
  ⟨(actual_builtin exampleRuntime [] ⟨4096⟩ .dict (by decide) (by decide) (by decide)
      (by decide) (by decide)).1,
    (actual_builtin exampleRuntime [] ⟨4096⟩ .dict (by decide) (by decide) (by decide)
      (by decide) (by decide)).2 rfl⟩

/-- C3: once `registerType` has bound the type `T1` to a class whose pointer type implements
`Object`, a live `BaseObject` of run-time type `T1` is resolved to a value of that registered
type placed right after the object header, backed by the same pointer, whatever the built-in
table says; the `switch` decides only when the type assertion fails or the lookup misses. -/
theorem actual_registered (R : Runtime) (types : Types) (obj : BaseObject) (T1 : Ptr)
    (cls : Class) (hlive : R.Live obj.o) (hT : R.ob_type obj.o = T1) :
    (cls.Pointer.isObject = true →
        obj.actual R (registerType T1 (some cls) types)
            = .ok (.Registered cls.Pointer (R.afterHead obj.o)) ∧
          (Object.Registered cls.Pointer (R.afterHead obj.o)).shape
            = .registered cls.Pointer ∧
          (Object.Registered cls.Pointer (R.afterHead obj.o)).handle R = obj.o) ∧
      (cls.Pointer.isObject = false →
        obj.actual R (registerType T1 (some cls) types) = .ok (actualSwitch R obj)) ∧
      (∀ types1 : Types, types1.get T1 = none →
        obj.actual R types1 = .ok (actualSwitch R obj)) := by
  have hget : (registerType T1 (some cls) types).get (R.ob_type obj.o) = some (some cls) := by
    rw [hT]; exact Types.get_registerType_self T1 (some cls) types
  have hhit := actual_of_hit R _ obj cls hlive.1 hget
  refine ⟨fun h => ⟨?_, rfl, ?_⟩, fun h => ?_, fun types1 h1 => ?_⟩
  · rw [hhit, if_pos h]
  · exact R.beforeHead_afterHead obj.o hlive.2
  · rw [hhit, h]; rfl
  · exact actual_of_miss R types1 obj hlive.1 (by rw [hT]; exact h1)

theorem actual_registered_witness :
    (BaseObject.mk 4128).actual exampleRuntime (registerType 500 (some exampleClass) [])
        = .ok (.Registered exampleClass.Pointer (exampleRuntime.afterHead 4128)) ∧
      (Object.Registered exampleClass.Pointer (exampleRuntime.afterHead 4128)).shape
        = .registered exampleClass.Pointer ∧
      (Object.Registered exampleClass.Pointer
        (exampleRuntime.afterHead 4128)).handle exampleRuntime = 4128 :=
  (actual_registered exampleRuntime [] ⟨4128⟩ 500 exampleClass (by decide) (by decide)).1 rfl

/-- C4: `actual` is idempotent up to the pointer: for a live wrapper `w` whose type is not
bound to a nil class, `actual` returns a value `x` backed by the pointer of `w`, and `actual`
applied to `x.Base()` returns `x` again, in the registered, the built-in and the fallback
branch alike.  A bool-typed pointer is one of the two bool objects of the foreign runtime. -/
theorem actual_idempotent (R : Runtime) (types : Types) (w : BaseObject)
    (hlive : R.Live w.o) (hcls : types.get (R.ob_type w.o) ≠ some none)
    (hbool : R.getBasePyType w.o = R.PyBool_Type → w.o = R.Py_True ∨ w.o = R.Py_False) :
    ∃ x y, w.actual R types = .ok x ∧ (x.Base R).actual R types = .ok y ∧
      y.handle R = x.handle R ∧ x.handle R = w.o := by
  have hsw := actualSwitch_Base R w hbool
  have hmiss : ∀ h : w.actual R types = .ok (actualSwitch R w),
      ∃ x y, w.actual R types = .ok x ∧ (x.Base R).actual R types = .ok y ∧
        y.handle R = x.handle R ∧ x.handle R = w.o := fun h =>
    ⟨_, _, h, by rw [hsw]; exact h, rfl, by rw [Object.handle, hsw]⟩
  cases hget : types.get (R.ob_type w.o) with
  | none => exact hmiss (actual_of_miss R types w hlive.1 hget)
  | some d =>
    cases d with
    | none => exact absurd hget hcls
    | some cls =>
      have hhit := actual_of_hit R types w cls hlive.1 hget
      cases hobj : cls.Pointer.isObject with
      | false => exact hmiss (by rw [hhit, hobj]; rfl)
      | true =>
        have hx : w.actual R types = .ok (.Registered cls.Pointer (R.afterHead w.o)) := by
          rw [hhit, if_pos hobj]
        have hb : (Object.Registered cls.Pointer (R.afterHead w.o)).Base R = w := by
          show BaseObject.mk (R.beforeHead (R.afterHead w.o)) = w
          rw [R.beforeHead_afterHead w.o hlive.2]
        exact ⟨_, _, hx, by rw [hb]; exact hx, rfl, by rw [Object.handle, hb]⟩

theorem actual_idempotent_witness :
    ∃ x y, (BaseObject.mk 4128).actual exampleRuntime [(500, some exampleClass)] = .ok x ∧
      (x.Base exampleRuntime).actual exampleRuntime [(500, some exampleClass)] = .ok y ∧
      y.handle exampleRuntime = x.handle exampleRuntime ∧ x.handle exampleRuntime = 4128 :=
  actual_idempotent exampleRuntime [(500, some exampleClass)] ⟨4128⟩ (by decide) (by decide)
    (by decide)

/-! ## The registry -/

/-- C5: right after `registerType(t, d)` the lookup of `t` in `types` yields `d`, and it
still yields `d` after any finite sequence of further `registerType` calls on type
identities other than `t`. -/
theorem registerType_lookup (t : Ptr) (d : Option Class) (types : Types) :
    (registerType t d types).get t = some d ∧
      ∀ rs : List (Ptr × Option Class), (∀ r ∈ rs, r.1 ≠ t) →
        Types.get (rs.foldl (fun m r => registerType r.1 r.2 m) (registerType t d types)) t
          = some d := by
  refine ⟨Types.get_registerType_self t d types, fun rs h => ?_⟩
  rw [Types.get_foldl_registerType t rs h, Types.get_registerType_self]

theorem registerType_lookup_witness :
    (registerType 500 (some exampleClass) [(120, none)]).get 500 = some (some exampleClass) ∧
      Types.get ([(120, some exampleClass), (600, none)].foldl
        (fun m r => registerType r.1 r.2 m)
        (registerType 500 (some exampleClass) [(120, none)])) 500 = some (some exampleClass) :=
  ⟨(registerType_lookup 500 (some exampleClass) [(120, none)]).1,
    (registerType_lookup 500 (some exampleClass) [(120, none)]).2
      [(120, some exampleClass), (600, none)] (by decide)⟩

/-! ## The call protocol -/

theorem World.since_append {σ V : Type} (w : World σ V) (s : σ) (es : List (Event V)) :
    w.since ⟨s, w.trace ++ es⟩ = es := by
  simp [World.since]

/-- C6: when the attribute lookup returns the null pointer, `CallMethod` and
`CallMethodObjArgs` return a nil result with the error `AttributeError: <name>`; the only
calls made are `CString`, the lookup and `free`, so that nothing is invoked, marshaled or
decremented. -/
theorem CallMethod_attribute_missing {σ V : Type} (F : Foreign σ V) (obj : BaseObject)
    (name format : String) (args : List V) (objArgs : List Iface) (w : World σ V)
    (h : (F.PyObject_GetAttrString w.foreign obj.o name).1 = NULL) :
    (CallMethod F obj name format args w).1 = .ok (none, some ("AttributeError: " ++ name)) ∧
      (CallMethodObjArgs F obj name objArgs w).1
        = .ok (none, some ("AttributeError: " ++ name)) ∧
      w.since (CallMethod F obj name format args w).2
        = [.CString name, .PyObject_GetAttrString obj.o name, .free name] ∧
      w.since (CallMethodObjArgs F obj name objArgs w).2
        = [.CString name, .PyObject_GetAttrString obj.o name, .free name] ∧
      (∀ e ∈ w.since (CallMethod F obj name format args w).2,
        e.isInvoke = false ∧ e.isMarshal = false ∧ e.isDecref = false) ∧
      (∀ e ∈ w.since (CallMethodObjArgs F obj name objArgs w).2,
        e.isInvoke = false ∧ e.isMarshal = false ∧ e.isDecref = false) := by
  have h1 : (CallMethod F obj name format args w)
      = (.ok (none, some ("AttributeError: " ++ name)),
        ⟨(F.PyObject_GetAttrString w.foreign obj.o name).2,
          w.trace ++ [.CString name, .PyObject_GetAttrString obj.o name, .free name]⟩) := by
    simp [CallMethod, bind, Go.bind, Go.call, Go.defer, Go.pure, h]
  have h2 : (CallMethodObjArgs F obj name objArgs w)
      = (.ok (none, some ("AttributeError: " ++ name)),
        ⟨(F.PyObject_GetAttrString w.foreign obj.o name).2,
          w.trace ++ [.CString name, .PyObject_GetAttrString obj.o name, .free name]⟩) := by
    simp [CallMethodObjArgs, bind, Go.bind, Go.call, Go.defer, Go.pure, h]
  rw [h1, h2, World.since_append]
  simp [Event.isInvoke, Event.isMarshal, Event.isDecref]

theorem CallMethod_attribute_missing_witness :
    (CallMethod exampleForeign ⟨4096⟩ "missing" "i" [1] ⟨0, []⟩).1
        = .ok (none, some ("AttributeError: " ++ "missing")) ∧
      (CallMethodObjArgs exampleForeign ⟨4096⟩ "missing" [.nil] ⟨0, []⟩).1
        = .ok (none, some ("AttributeError: " ++ "missing")) ∧
      World.since ⟨0, []⟩ (CallMethod exampleForeign ⟨4096⟩ "missing" "i" [1] ⟨0, []⟩).2
        = [.CString "missing", .PyObject_GetAttrString 4096 "missing", .free "missing"] ∧
      World.since ⟨0, []⟩ (CallMethodObjArgs exampleForeign ⟨4096⟩ "missing" [.nil] ⟨0, []⟩).2
        = [.CString "missing", .PyObject_GetAttrString 4096 "missing", .free "missing"] ∧
      (∀ e ∈ World.since ⟨0, []⟩
          (CallMethod exampleForeign ⟨4096⟩ "missing" "i" [1] ⟨0, []⟩).2,
        e.isInvoke = false ∧ e.isMarshal = false ∧ e.isDecref = false) ∧
      (∀ e ∈ World.since ⟨0, []⟩
          (CallMethodObjArgs exampleForeign ⟨4096⟩ "missing" [.nil] ⟨0, []⟩).2,
        e.isInvoke = false ∧ e.isMarshal = false ∧ e.isDecref = false) :=
  CallMethod_attribute_missing exampleForeign ⟨4096⟩ "missing" "i" [1] [.nil] ⟨0, []⟩
    (by decide)

/-- C7: when the attribute exists and the callable check reports `0`, `CallMethod` and
`CallMethodObjArgs` return a nil result with the error
`TypeError: attribute of type '<name>' is not callable`; the calls made are `CString`, the
lookup, the check, the deferred decrement and `free`, so that nothing is invoked or
marshaled. -/
theorem CallMethod_not_callable {σ V : Type} (F : Foreign σ V) (obj : BaseObject)
    (name format : String) (args : List V) (objArgs : List Iface) (w : World σ V)
    (hf : (F.PyObject_GetAttrString w.foreign obj.o name).1 ≠ NULL)
    (hchk : (F.PyCallable_Check (F.PyObject_GetAttrString w.foreign obj.o name).2
      (F.PyObject_GetAttrString w.foreign obj.o name).1).1 = 0) :
    (CallMethod F obj name format args w).1
        = .ok (none, some ("TypeError: attribute of type '" ++ name ++ "' is not callable")) ∧
      (CallMethodObjArgs F obj name objArgs w).1
        = .ok (none, some ("TypeError: attribute of type '" ++ name ++ "' is not callable")) ∧
      w.since (CallMethod F obj name format args w).2
        = [.CString name, .PyObject_GetAttrString obj.o name,
            .PyCallable_Check (F.PyObject_GetAttrString w.foreign obj.o name).1,
            .decref (F.PyObject_GetAttrString w.foreign obj.o name).1, .free name] ∧
      w.since (CallMethodObjArgs F obj name objArgs w).2
        = [.CString name, .PyObject_GetAttrString obj.o name,
            .PyCallable_Check (F.PyObject_GetAttrString w.foreign obj.o name).1,
            .decref (F.PyObject_GetAttrString w.foreign obj.o name).1, .free name] ∧
      (∀ e ∈ w.since (CallMethod F obj name format args w).2,
        e.isInvoke = false ∧ e.isMarshal = false) ∧
      (∀ e ∈ w.since (CallMethodObjArgs F obj name objArgs w).2,
        e.isInvoke = false ∧ e.isMarshal = false) := by
  have h1 : (CallMethod F obj name format args w)
      = (.ok (none, some ("TypeError: attribute of type '" ++ name ++ "' is not callable")),
        ⟨F.decref (F.PyCallable_Check (F.PyObject_GetAttrString w.foreign obj.o name).2
            (F.PyObject_GetAttrString w.foreign obj.o name).1).2
            (F.PyObject_GetAttrString w.foreign obj.o name).1,
          w.trace ++ [.CString name, .PyObject_GetAttrString obj.o name,
            .PyCallable_Check (F.PyObject_GetAttrString w.foreign obj.o name).1,
            .decref (F.PyObject_GetAttrString w.foreign obj.o name).1, .free name]⟩) := by
    simp [CallMethod, bind, Go.bind, Go.call, Go.defer, Go.pure, hf, hchk]
  have h2 : (CallMethodObjArgs F obj name objArgs w)
      = (.ok (none, some ("TypeError: attribute of type '" ++ name ++ "' is not callable")),
        ⟨F.decref (F.PyCallable_Check (F.PyObject_GetAttrString w.foreign obj.o name).2
            (F.PyObject_GetAttrString w.foreign obj.o name).1).2
            (F.PyObject_GetAttrString w.foreign obj.o name).1,
          w.trace ++ [.CString name, .PyObject_GetAttrString obj.o name,
            .PyCallable_Check (F.PyObject_GetAttrString w.foreign obj.o name).1,
            .decref (F.PyObject_GetAttrString w.foreign obj.o name).1, .free name]⟩) := by
    simp [CallMethodObjArgs, bind, Go.bind, Go.call, Go.defer, Go.pure, hf, hchk]
  rw [h1, h2, World.since_append]
  simp [Event.isInvoke, Event.isMarshal]

theorem CallMethod_not_callable_witness :
    (CallMethod exampleForeign ⟨4096⟩ "size" "i" [1] ⟨0, []⟩).1
        = .ok (none, some ("TypeError: attribute of type '" ++ "size" ++ "' is not callable")) ∧
      (CallMethodObjArgs exampleForeign ⟨4096⟩ "size" [.nil] ⟨0, []⟩).1
        = .ok (none, some ("TypeError: attribute of type '" ++ "size" ++ "' is not callable")) ∧
      World.since ⟨0, []⟩ (CallMethod exampleForeign ⟨4096⟩ "size" "i" [1] ⟨0, []⟩).2
        = [.CString "size", .PyObject_GetAttrString 4096 "size",
            .PyCallable_Check (exampleForeign.PyObject_GetAttrString 0 4096 "size").1,
            .decref (exampleForeign.PyObject_GetAttrString 0 4096 "size").1, .free "size"] ∧
      World.since ⟨0, []⟩ (CallMethodObjArgs exampleForeign ⟨4096⟩ "size" [.nil] ⟨0, []⟩).2
        = [.CString "size", .PyObject_GetAttrString 4096 "size",
            .PyCallable_Check (exampleForeign.PyObject_GetAttrString 0 4096 "size").1,
            .decref (exampleForeign.PyObject_GetAttrString 0 4096 "size").1, .free "size"] ∧
      (∀ e ∈ World.since ⟨0, []⟩
          (CallMethod exampleForeign ⟨4096⟩ "size" "i" [1] ⟨0, []⟩).2,
        e.isInvoke = false ∧ e.isMarshal = false) ∧
      (∀ e ∈ World.since ⟨0, []⟩
          (CallMethodObjArgs exampleForeign ⟨4096⟩ "size" [.nil] ⟨0, []⟩).2,
        e.isInvoke = false ∧ e.isMarshal = false) :=
  CallMethod_not_callable exampleForeign ⟨4096⟩ "size" "i" [1] [.nil] ⟨0, []⟩
    (by decide) (by decide)

/-- C8: whenever the attribute lookup returns a non-null pointer `f`, `CallMethod` and
`CallMethodObjArgs` decrement `f` exactly once, and decrement nothing else, by the time they
return, whatever the callable check, the marshaler and the invocation do, a host panic
included. -/
theorem CallMethod_decref_once {σ V : Type} (F : Foreign σ V) (obj : BaseObject)
    (name format : String) (args : List V) (objArgs : List Iface) (w : World σ V)
    (hf : (F.PyObject_GetAttrString w.foreign obj.o name).1 ≠ NULL) :
    ((w.since (CallMethod F obj name format args w).2).countP
        (Event.isDecrefOf (F.PyObject_GetAttrString w.foreign obj.o name).1) = 1 ∧
      (w.since (CallMethod F obj name format args w).2).countP Event.isDecref = 1) ∧
    ((w.since (CallMethodObjArgs F obj name objArgs w).2).countP
        (Event.isDecrefOf (F.PyObject_GetAttrString w.foreign obj.o name).1) = 1 ∧
      (w.since (CallMethodObjArgs F obj name objArgs w).2).countP Event.isDecref = 1) := by
  rcases hg : F.PyObject_GetAttrString w.foreign obj.o name with ⟨f, s1⟩
  rw [hg] at hf
  rcases hc : F.PyCallable_Check s1 f with ⟨chk, s2⟩
  constructor
  · rcases hb : F.buildTuple s2 format args with ⟨⟨t, err⟩, s3⟩
    by_cases h1 : chk = 0
    · simp_all [CallMethod, bind, Go.bind, Go.call, Go.defer, Go.pure, Go.lift, obj2ObjErr,
        World.since, Event.isDecrefOf, Event.isDecref, List.countP_cons]
    · cases err <;> cases t <;>
        simp_all [CallMethod, bind, Go.bind, Go.call, Go.defer, Go.pure, Go.lift, obj2ObjErr,
          World.since, Event.isDecrefOf, Event.isDecref, List.countP_cons, c, Tuple.iface]
  · rcases hb : F.Tuple_Pack s2 objArgs with ⟨⟨t, err⟩, s3⟩
    by_cases h1 : chk = 0
    · simp_all [CallMethodObjArgs, bind, Go.bind, Go.call, Go.defer, Go.pure, Go.lift,
        obj2ObjErr, World.since, Event.isDecrefOf, Event.isDecref, List.countP_cons]
    · cases err <;> cases t <;>
        simp_all [CallMethodObjArgs, bind, Go.bind, Go.call, Go.defer, Go.pure, Go.lift,
          obj2ObjErr, World.since, Event.isDecrefOf, Event.isDecref, List.countP_cons, c,
          Tuple.iface]

theorem CallMethod_decref_once_witness :
    ((World.since ⟨0, []⟩ (CallMethod exampleForeign ⟨4096⟩ "keys" "" [] ⟨0, []⟩).2).countP
        (Event.isDecrefOf (exampleForeign.PyObject_GetAttrString 0 4096 "keys").1) = 1 ∧
      (World.since ⟨0, []⟩
        (CallMethod exampleForeign ⟨4096⟩ "keys" "" [] ⟨0, []⟩).2).countP Event.isDecref = 1) ∧
    ((World.since ⟨0, []⟩ (CallMethodObjArgs exampleForeign ⟨4096⟩ "keys" [] ⟨0, []⟩).2).countP
        (Event.isDecrefOf (exampleForeign.PyObject_GetAttrString 0 4096 "keys").1) = 1 ∧
      (World.since ⟨0, []⟩
        (CallMethodObjArgs exampleForeign ⟨4096⟩ "keys" [] ⟨0, []⟩).2).countP
          Event.isDecref = 1) :=
  CallMethod_decref_once exampleForeign ⟨4096⟩ "keys" "" [] [] ⟨0, []⟩ (by decide)

/-- C9: when the marshaler `buildTuple` returns an error, `CallFunction` returns a nil result
with that very error, and the marshaler is the only call made: nothing is invoked. -/
theorem CallFunction_marshal_error {σ V : Type} (F : Foreign σ V) (obj : BaseObject)
    (format : String) (args : List V) (w : World σ V) (err : Error)
    (h : (F.buildTuple w.foreign format args).1.2 = some err) :
    (CallFunction F obj format args w).1 = .ok (none, some err) ∧
      w.since (CallFunction F obj format args w).2 = [.buildTuple format args] ∧
      (w.since (CallFunction F obj format args w).2).countP Event.isInvoke = 0 := by
  have h1 : CallFunction F obj format args w
      = (.ok (none, some err),
        ⟨(F.buildTuple w.foreign format args).2, w.trace ++ [.buildTuple format args]⟩) := by
    simp [CallFunction, bind, Go.bind, Go.call, Go.pure, h]
  rw [h1, World.since_append]
  simp [Event.isInvoke]

theorem CallFunction_marshal_error_witness :
    (CallFunction exampleForeign ⟨4096⟩ "ii" [1] ⟨0, []⟩).1
        = .ok (none, some "buildTuple: wrong number of values") ∧
      World.since ⟨0, []⟩ (CallFunction exampleForeign ⟨4096⟩ "ii" [1] ⟨0, []⟩).2
        = [.buildTuple "ii" [1]] ∧
      (World.since ⟨0, []⟩
        (CallFunction exampleForeign ⟨4096⟩ "ii" [1] ⟨0, []⟩).2).countP Event.isInvoke = 0 :=
  CallFunction_marshal_error exampleForeign ⟨4096⟩ "ii" [1] ⟨0, []⟩
    "buildTuple: wrong number of values" (by decide)

/-- C10: `Call` with a nil `*Tuple` or a nil `*Dict` does not reach `PyObject_Call`: the nil
pointer arrives at `c` inside a non-nil interface value, `c` loads through it, and the host
panics with no call made. -/
theorem Call_nil_panics {σ V : Type} (F : Foreign σ V) (obj : BaseObject)
    (args : Option Tuple) (kwds : Option Dict) (w : World σ V) :
    Call F obj none kwds w = (.error .nilDeref, w) ∧
      Call F obj args none w = (.error .nilDeref, w) := by
  constructor
  · simp [Call, bind, Go.bind, Go.lift, c, Tuple.iface, BaseObject.iface]
  · cases args <;> simp [Call, bind, Go.bind, Go.lift, c, Tuple.iface, Dict.iface,
      BaseObject.iface]

/-- The sibling `CallObject` guards the nil `*Tuple` and passes the null pointer. -/
theorem CallObject_nil {σ V : Type} (F : Foreign σ V) (obj : BaseObject) (w : World σ V) :
    (w.since (CallObject F obj none w).2).head? = some (.PyObject_CallObject obj.o NULL) := by
  simp [CallObject, bind, Go.bind, Go.lift, Go.pure, Go.call, c, BaseObject.iface, obj2ObjErr,
    World.since]

/-- With both arguments present `Call` passes the three pointers to `PyObject_Call`. -/
theorem Call_present {σ V : Type} (F : Foreign σ V) (obj : BaseObject) (args : Tuple)
    (kwds : Dict) (w : World σ V) :
    (w.since (Call F obj (some args) (some kwds) w).2).head?
      = some (.PyObject_Call obj.o args.toBaseObject.o kwds.toBaseObject.o) := by
  simp [Call, bind, Go.bind, Go.lift, Go.call, c, BaseObject.iface, Tuple.iface, Dict.iface,
    obj2ObjErr, World.since]

/-- The calls of a successful `CallMethod`, in order. -/
theorem CallMethod_example_trace :
    (CallMethod exampleForeign ⟨4096⟩ "keys" "" [] ⟨0, []⟩).1
        = .ok (some (.Plain ⟨6000⟩), none) ∧
      (CallMethod exampleForeign ⟨4096⟩ "keys" "" [] ⟨0, []⟩).2.trace
        = [.CString "keys", .PyObject_GetAttrString 4096 "keys", .PyCallable_Check 5000,
            .buildTuple "" [], .PyObject_CallObject 5000 9000, .obj2ObjErr 6000,
            .decref 5000, .free "keys"] := by
  constructor <;> rfl

end Gopy
